import Mathlib

/-!
Verification development for the DCF generator (src/IAS.py).

The valuation engine `calculate_dcf` and the two report projections
(`generate_spreadsheet` with `apply_formatting` and `add_charts`, and
`generate_pdf`) are shallowly embedded here.  Python floats are modelled
as exact rationals; Python division, which raises `ZeroDivisionError`
on a zero denominator, is modelled with `Except String`, so a raised
error aborts the rest of the computation exactly as in Python.
-/

set_option maxHeartbeats 1000000

namespace IAS

/-- Input record consumed by the valuation engine: the `user_inputs`
dictionary read at the top of `calculate_dcf` in src/IAS.py. -/
structure UserInputs where
  tax_rate : ℚ
  long_term_growth_rate : ℚ
  wacc : ℚ
  share_price : ℚ
  shares_outstanding : ℚ
  cash : ℚ
  debt : ℚ
  ebit : List ℚ
  da : List ℚ
  capex : List ℚ
  changes_in_nwc : List ℚ
deriving Repr, DecidableEq

/-- Result record: the dictionary returned at the end of `calculate_dcf`. -/
structure ValuationResult where
  fcf : List ℚ
  terminal_value : ℚ
  present_values : List ℚ
  present_terminal_value : ℚ
  enterprise_value : ℚ
  equity_value : ℚ
  intrinsic_value_per_share : ℚ
  market_cap : ℚ
  intrinsic_value_premium : ℚ
  intrinsic_value_premium_percentage : ℚ
deriving Repr, DecidableEq

/-- Python division on floats: raises `ZeroDivisionError` when the
denominator is zero, otherwise returns the quotient. -/
def pyDiv (x y : ℚ) : Except String ℚ :=
  if y = 0 then Except.error "ZeroDivisionError" else Except.ok (x / y)

/-- Embedding of `calculate_dcf` (src/IAS.py lines 17-79).  Sequence
elements are read with `List.getD i 0`, which agrees with Python's `l[i]`
whenever the list has length at least `i + 1` (the spec invariant is
length exactly 5); `fcf[-1]` is the last element of the length-5 `fcf`
list.  Every Python division goes through `pyDiv`, so the computation
aborts with the error at the first zero denominator, exactly as the
Python function propagates `ZeroDivisionError`: no partial result
record is ever produced. -/
def calculate_dcf (u : UserInputs) : Except String ValuationResult := do
  let fcf : List ℚ := (List.range 5).map (fun i =>
    let tax_on_ebit := u.ebit.getD i 0 * u.tax_rate * (-1)
    u.ebit.getD i 0 + tax_on_ebit + u.da.getD i 0 + u.capex.getD i 0 + u.changes_in_nwc.getD i 0)
  let terminal_value ← pyDiv (fcf.getLastD 0 * (1 + u.long_term_growth_rate))
    (u.wacc - u.long_term_growth_rate)
  let present_values ← (List.range 5).mapM (fun i => do
    let discount_factor ← pyDiv 1 ((1 + u.wacc) ^ (i + 1))
    pure (fcf.getD i 0 * discount_factor))
  let discount_factor_terminal ← pyDiv 1 ((1 + u.wacc) ^ 5)
  let present_terminal_value := terminal_value * discount_factor_terminal
  let enterprise_value := present_values.sum + present_terminal_value
  let equity_value := enterprise_value + u.cash - u.debt
  let intrinsic_value_per_share ← pyDiv equity_value u.shares_outstanding
  let market_cap := u.share_price * u.shares_outstanding
  let intrinsic_value_premium := equity_value - market_cap
  let intrinsic_value_premium_percentage ← pyDiv intrinsic_value_premium market_cap
  return {
    fcf := fcf
    terminal_value := terminal_value
    present_values := present_values
    present_terminal_value := present_terminal_value
    enterprise_value := enterprise_value
    equity_value := equity_value
    intrinsic_value_per_share := intrinsic_value_per_share
    market_cap := market_cap
    intrinsic_value_premium := intrinsic_value_premium
    intrinsic_value_premium_percentage := intrinsic_value_premium_percentage }

/-- True when the engine aborted with the arithmetic-singularity error
(the spec's `DomainError`): the Python call raised instead of returning
a result dictionary. -/
def raisesDomainError (e : Except String ValuationResult) : Bool :=
  match e with
  | Except.error _ => true
  | Except.ok _ => false

/-- Closed form of a successful `calculate_dcf` run: the same arithmetic
with plain division in place of `pyDiv`.  Used only to state what the
engine returns when no division fails. -/
def dcfClosedForm (u : UserInputs) : ValuationResult :=
  let fcf : List ℚ := (List.range 5).map (fun i =>
    let tax_on_ebit := u.ebit.getD i 0 * u.tax_rate * (-1)
    u.ebit.getD i 0 + tax_on_ebit + u.da.getD i 0 + u.capex.getD i 0 + u.changes_in_nwc.getD i 0)
  let terminal_value := fcf.getLastD 0 * (1 + u.long_term_growth_rate) /
    (u.wacc - u.long_term_growth_rate)
  let present_values : List ℚ := (List.range 5).map (fun i =>
    fcf.getD i 0 * (1 / (1 + u.wacc) ^ (i + 1)))
  let discount_factor_terminal := 1 / (1 + u.wacc) ^ 5
  let present_terminal_value := terminal_value * discount_factor_terminal
  let enterprise_value := present_values.sum + present_terminal_value
  let equity_value := enterprise_value + u.cash - u.debt
  let intrinsic_value_per_share := equity_value / u.shares_outstanding
  let market_cap := u.share_price * u.shares_outstanding
  let intrinsic_value_premium := equity_value - market_cap
  let intrinsic_value_premium_percentage := intrinsic_value_premium / market_cap
  { fcf := fcf
    terminal_value := terminal_value
    present_values := present_values
    present_terminal_value := present_terminal_value
    enterprise_value := enterprise_value
    equity_value := equity_value
    intrinsic_value_per_share := intrinsic_value_per_share
    market_cap := market_cap
    intrinsic_value_premium := intrinsic_value_premium
    intrinsic_value_premium_percentage := intrinsic_value_premium_percentage }

theorem hr5 : List.range 5 = [0, 1, 2, 3, 4] := rfl

/-- When none of the four denominators vanish, the engine succeeds and
returns the closed-form record. -/
theorem calculate_dcf_ok (u : UserInputs)
    (h1 : u.wacc - u.long_term_growth_rate ≠ 0)
    (h2 : (1 : ℚ) + u.wacc ≠ 0)
    (h3 : u.shares_outstanding ≠ 0)
    (h4 : u.share_price * u.shares_outstanding ≠ 0) :
    calculate_dcf u = Except.ok (dcfClosedForm u) := by
  have hp : ∀ k : ℕ, ((1 : ℚ) + u.wacc) ^ k ≠ 0 := fun k => pow_ne_zero k h2
  simp only [calculate_dcf, dcfClosedForm, pyDiv, hr5, List.map_cons, List.map_nil,
    List.mapM_cons, List.mapM_nil, h1, h2, h3, h4, hp 1, hp 2, hp 3, hp 4, hp 5,
    ite_false, List.getD, List.getLastD, bind, Except.bind, pure, Except.pure,
    if_neg, not_false_iff]

/-- Exact characterisation of the inputs on which `calculate_dcf` raises:
the three singularities named by the spec plus the discount-factor
singularity `1 + wacc = 0`, which the spec does not mention. -/
theorem calculate_dcf_error_char (u : UserInputs) :
    raisesDomainError (calculate_dcf u) = true ↔
      (u.wacc = u.long_term_growth_rate ∨ (1 : ℚ) + u.wacc = 0 ∨
       u.shares_outstanding = 0 ∨ u.share_price * u.shares_outstanding = 0) := by
  by_cases hc1 : u.wacc - u.long_term_growth_rate = 0
  · have hw : u.wacc = u.long_term_growth_rate := by linarith
    simp only [calculate_dcf, pyDiv, hc1, ite_true, if_pos, Except.bind, bind,
      raisesDomainError]
    simp [hw]
  · have hw : ¬ (u.wacc = u.long_term_growth_rate) := fun h => hc1 (by rw [h]; ring)
    by_cases hc2 : (1 : ℚ) + u.wacc = 0
    · have hz1 : ((1 : ℚ) + u.wacc) ^ (0 + 1) = 0 := by rw [hc2]; ring
      simp only [calculate_dcf, pyDiv, hr5, hc1, ite_false, List.mapM_cons, hz1,
        ite_true, Except.bind, bind, raisesDomainError, if_neg, not_false_iff]
      simp [hw, hc2]
    · by_cases hc3 : u.shares_outstanding = 0
      · have hp : ∀ k : ℕ, ((1 : ℚ) + u.wacc) ^ k ≠ 0 := fun k => pow_ne_zero k hc2
        simp only [calculate_dcf, pyDiv, hr5, hc1, ite_false, List.mapM_cons, List.mapM_nil,
          hp 1, hp 2, hp 3, hp 4, hp 5, hc3, ite_true, Except.bind, bind, pure, Except.pure,
          raisesDomainError, if_neg, not_false_iff]
        simp [hc3]
      · by_cases hc4 : u.share_price * u.shares_outstanding = 0
        · have hp : ∀ k : ℕ, ((1 : ℚ) + u.wacc) ^ k ≠ 0 := fun k => pow_ne_zero k hc2
          simp only [calculate_dcf, pyDiv, hr5, hc1, ite_false, List.mapM_cons, List.mapM_nil,
            hp 1, hp 2, hp 3, hp 4, hp 5, hc3, hc4, ite_true, Except.bind, bind, pure,
            Except.pure, raisesDomainError, if_neg, not_false_iff]
          simp [hc4]
        · rw [calculate_dcf_ok u hc1 hc2 hc3 hc4]
          simp [raisesDomainError, hw, hc2, hc3, hc4]

/-- A successful run pins down all four non-vanishing conditions and the
returned record. -/
theorem calculate_dcf_ok_cases (u : UserInputs) (r : ValuationResult)
    (h : calculate_dcf u = Except.ok r) :
    u.wacc ≠ u.long_term_growth_rate ∧ (1 : ℚ) + u.wacc ≠ 0 ∧
    u.shares_outstanding ≠ 0 ∧ u.share_price * u.shares_outstanding ≠ 0 ∧
    r = dcfClosedForm u := by
  have hch := calculate_dcf_error_char u
  rw [h] at hch
  simp only [raisesDomainError, Bool.false_eq_true, false_iff] at hch
  push_neg at hch
  obtain ⟨ha, hb, hc, hd⟩ := hch
  have hsub : u.wacc - u.long_term_growth_rate ≠ 0 := sub_ne_zero_of_ne ha
  have hok := calculate_dcf_ok u hsub hb hc hd
  rw [hok] at h
  exact ⟨ha, hb, hc, hd, (Except.ok.inj h).symm⟩

/-- Default inputs of the reference UI surface (`main` in src/IAS.py):
tax_rate 0.21, growth 0.03, WACC 0.08, share_price 3.0,
shares_outstanding 1000.0, cash 124.2, debt 500.0, first-year
EBIT 270.0, D&A 20.0, CapEx -30.0, change in NWC -2.8, later years 0. -/
def defaultInputs : UserInputs :=
  { tax_rate := 21/100
    long_term_growth_rate := 3/100
    wacc := 8/100
    share_price := 3
    shares_outstanding := 1000
    cash := 621/5
    debt := 500
    ebit := [270, 0, 0, 0, 0]
    da := [20, 0, 0, 0, 0]
    capex := [-30, 0, 0, 0, 0]
    changes_in_nwc := [-14/5, 0, 0, 0, 0] }

/-- Exact valuation result for the default inputs. -/
def defaultResult : ValuationResult :=
  { fcf := [401/2, 0, 0, 0, 0]
    terminal_value := 0
    present_values := [10025/54, 0, 0, 0, 0]
    present_terminal_value := 0
    enterprise_value := 10025/54
    equity_value := -51341/270
    intrinsic_value_per_share := -51341/270000
    market_cap := 3000
    intrinsic_value_premium := -861341/270
    intrinsic_value_premium_percentage := -861341/810000 }

/-- The engine run on the default inputs succeeds with `defaultResult`. -/
theorem default_run : calculate_dcf defaultInputs = Except.ok defaultResult := by
  have h := calculate_dcf_ok defaultInputs (by norm_num [defaultInputs])
    (by norm_num [defaultInputs]) (by norm_num [defaultInputs]) (by norm_num [defaultInputs])
  rw [h]
  congr 1
  simp only [dcfClosedForm, defaultInputs, defaultResult, hr5, List.map_cons, List.map_nil,
    List.getD, List.get?, Option.getD, List.sum_cons, List.sum_nil,
    ValuationResult.mk.injEq]
  norm_num

/-- Input reaching the discount-factor singularity: `wacc = -1`, while
none of the spec's three `DomainError` conditions holds. -/
def cexC1 : UserInputs :=
  { tax_rate := 21/100
    long_term_growth_rate := 3/100
    wacc := -1
    share_price := 3
    shares_outstanding := 1000
    cash := 0
    debt := 0
    ebit := [1, 1, 1, 1, 1]
    da := [0, 0, 0, 0, 0]
    capex := [0, 0, 0, 0, 0]
    changes_in_nwc := [0, 0, 0, 0, 0] }

/-- Claim C1, counterexample: on `cexC1` (a well-formed AssumptionSet with
length-5 sequences) the engine raises, although `wacc` differs from the
growth rate, `shares_outstanding` is nonzero and `market_cap` is nonzero:
with `wacc = -1` the discount-factor division `1 / (1 + wacc) ** (i+1)`
divides by zero, a failure mode outside the claim's three conditions, so
the claimed equivalence is false as stated. -/
theorem C1_counterexample :
    raisesDomainError (calculate_dcf cexC1) = true ∧
    cexC1.ebit.length = 5 ∧ cexC1.da.length = 5 ∧
    cexC1.capex.length = 5 ∧ cexC1.changes_in_nwc.length = 5 ∧
    ¬ (cexC1.wacc = cexC1.long_term_growth_rate ∨ cexC1.shares_outstanding = 0 ∨
       cexC1.share_price * cexC1.shares_outstanding = 0) := by
  refine ⟨?_, by decide, by decide, by decide, by decide, ?_⟩
  · exact (calculate_dcf_error_char cexC1).mpr (Or.inr (Or.inl (by norm_num [cexC1])))
  · norm_num [cexC1]

/-- Claim C1, amended: on AssumptionSets with length-5 projection
sequences, `calculate_dcf` fails with the domain error if and only if
`wacc = long_term_growth_rate`, or `1 + wacc = 0` (discount-factor
division by zero), or `shares_outstanding = 0`, or
`market_cap = share_price * shares_outstanding = 0`; any such failure
aborts the whole computation, so no partial result record is returned. -/
theorem C1_domain_error_iff (u : UserInputs)
    (hl1 : u.ebit.length = 5) (hl2 : u.da.length = 5)
    (hl3 : u.capex.length = 5) (hl4 : u.changes_in_nwc.length = 5) :
    raisesDomainError (calculate_dcf u) = true ↔
      (u.wacc = u.long_term_growth_rate ∨ (1 : ℚ) + u.wacc = 0 ∨
       u.shares_outstanding = 0 ∨ u.share_price * u.shares_outstanding = 0) :=
  calculate_dcf_error_char u

/-- Witness for C1 at the default inputs: the hypotheses hold there and
the amended equivalence is an instance of `C1_domain_error_iff`. -/
theorem C1_domain_error_iff_witness :
    defaultInputs.ebit.length = 5 ∧ defaultInputs.da.length = 5 ∧
    defaultInputs.capex.length = 5 ∧ defaultInputs.changes_in_nwc.length = 5 ∧
    (raisesDomainError (calculate_dcf defaultInputs) = true ↔
      (defaultInputs.wacc = defaultInputs.long_term_growth_rate ∨
       (1 : ℚ) + defaultInputs.wacc = 0 ∨ defaultInputs.shares_outstanding = 0 ∨
       defaultInputs.share_price * defaultInputs.shares_outstanding = 0)) :=
  ⟨by decide, by decide, by decide, by decide,
    C1_domain_error_iff defaultInputs (by decide) (by decide) (by decide) (by decide)⟩

/-- Claim C2: for every AssumptionSet with length-5 projection sequences
and every period index `i < 5`, the free cash flow returned by
`calculate_dcf` satisfies
`fcf[i] = ebit[i] - ebit[i]*tax_rate + da[i] + capex[i] + changes_in_nwc[i]`,
with `capex` and `changes_in_nwc` added exactly as supplied (no
re-signing by the engine). -/
theorem C2_fcf_formula (u : UserInputs) (r : ValuationResult) (i : ℕ)
    (hl1 : u.ebit.length = 5) (hl2 : u.da.length = 5)
    (hl3 : u.capex.length = 5) (hl4 : u.changes_in_nwc.length = 5)
    (h : calculate_dcf u = Except.ok r) (hi : i < 5) :
    r.fcf.getD i 0 = u.ebit.getD i 0 - u.ebit.getD i 0 * u.tax_rate +
      u.da.getD i 0 + u.capex.getD i 0 + u.changes_in_nwc.getD i 0 := by
  obtain ⟨-, -, -, -, hr⟩ := calculate_dcf_ok_cases u r h
  subst hr
  interval_cases i <;>
    (simp only [dcfClosedForm, hr5, List.map_cons, List.map_nil, List.getD, List.get?,
      Option.getD]; ring)

/-- Witness for C2 at the default inputs with period index 0. -/
theorem C2_fcf_formula_witness :
    defaultInputs.ebit.length = 5 ∧ defaultInputs.da.length = 5 ∧
    defaultInputs.capex.length = 5 ∧ defaultInputs.changes_in_nwc.length = 5 ∧
    calculate_dcf defaultInputs = Except.ok defaultResult ∧ 0 < 5 ∧
    defaultResult.fcf.getD 0 0 = defaultInputs.ebit.getD 0 0 -
      defaultInputs.ebit.getD 0 0 * defaultInputs.tax_rate +
      defaultInputs.da.getD 0 0 + defaultInputs.capex.getD 0 0 +
      defaultInputs.changes_in_nwc.getD 0 0 :=
  ⟨by decide, by decide, by decide, by decide, default_run, by decide,
    C2_fcf_formula defaultInputs defaultResult 0 (by decide) (by decide) (by decide)
      (by decide) default_run (by decide)⟩

/-- Claim C3: whenever `wacc` differs from the long-term growth rate and
the engine returns a result, the terminal value equals
`fcf[4] * (1 + g) / (wacc - g)` with `g` the long-term growth rate and
`fcf[4]` the last forecast period's free cash flow. -/
theorem C3_terminal_value (u : UserInputs) (r : ValuationResult)
    (hw : u.wacc ≠ u.long_term_growth_rate)
    (h : calculate_dcf u = Except.ok r) :
    r.terminal_value = r.fcf.getD 4 0 * (1 + u.long_term_growth_rate) /
      (u.wacc - u.long_term_growth_rate) := by
  obtain ⟨-, -, -, -, hr⟩ := calculate_dcf_ok_cases u r h
  subst hr
  simp only [dcfClosedForm, hr5, List.map_cons, List.map_nil, List.getD, List.get?,
    Option.getD, List.getLastD, List.getLast]

/-- Witness for C3 at the default inputs. -/
theorem C3_terminal_value_witness :
    defaultInputs.wacc ≠ defaultInputs.long_term_growth_rate ∧
    calculate_dcf defaultInputs = Except.ok defaultResult ∧
    defaultResult.terminal_value = defaultResult.fcf.getD 4 0 *
      (1 + defaultInputs.long_term_growth_rate) /
      (defaultInputs.wacc - defaultInputs.long_term_growth_rate) :=
  ⟨by norm_num [defaultInputs], default_run,
    C3_terminal_value defaultInputs defaultResult (by norm_num [defaultInputs]) default_run⟩

/-- Claim C4: discounting is end-of-period, with no mid-year convention:
for every period index `i < 5`, `present_values[i] = fcf[i] / (1 + wacc) ^ (i+1)`,
and the present terminal value is `terminal_value / (1 + wacc) ^ 5`. -/
theorem C4_discounting (u : UserInputs) (r : ValuationResult) (i : ℕ)
    (h : calculate_dcf u = Except.ok r) (hi : i < 5) :
    r.present_values.getD i 0 = r.fcf.getD i 0 / (1 + u.wacc) ^ (i + 1) ∧
    r.present_terminal_value = r.terminal_value / (1 + u.wacc) ^ 5 := by
  obtain ⟨-, -, -, -, hr⟩ := calculate_dcf_ok_cases u r h
  subst hr
  constructor
  · interval_cases i <;>
      (simp only [dcfClosedForm, hr5, List.map_cons, List.map_nil, List.getD, List.get?,
        Option.getD]; ring)
  · simp only [dcfClosedForm]; ring

/-- Witness for C4 at the default inputs with period index 0. -/
theorem C4_discounting_witness :
    calculate_dcf defaultInputs = Except.ok defaultResult ∧ 0 < 5 ∧
    (defaultResult.present_values.getD 0 0 =
      defaultResult.fcf.getD 0 0 / (1 + defaultInputs.wacc) ^ (0 + 1) ∧
    defaultResult.present_terminal_value =
      defaultResult.terminal_value / (1 + defaultInputs.wacc) ^ 5) :=
  ⟨default_run, by decide,
    C4_discounting defaultInputs defaultResult 0 default_run (by decide)⟩

/-- Claim C5: for every AssumptionSet with `wacc` above the long-term
growth rate and nonzero `shares_outstanding` and `market_cap`, a result
of `calculate_dcf` satisfies
`enterprise_value = sum(present_values) + present_terminal_value`,
`equity_value = enterprise_value + cash - debt`, and
`intrinsic_value_premium_percentage = intrinsic_value_premium / market_cap`.
All three hold as exact rational identities, which is stronger than the
claimed 1e-9 relative tolerance. -/
theorem C5_value_bridge (u : UserInputs) (r : ValuationResult)
    (hg : u.long_term_growth_rate < u.wacc)
    (hs : u.shares_outstanding ≠ 0)
    (hm : u.share_price * u.shares_outstanding ≠ 0)
    (h : calculate_dcf u = Except.ok r) :
    r.enterprise_value = r.present_values.sum + r.present_terminal_value ∧
    r.equity_value = r.enterprise_value + u.cash - u.debt ∧
    r.intrinsic_value_premium_percentage = r.intrinsic_value_premium / r.market_cap := by
  obtain ⟨-, -, -, -, hr⟩ := calculate_dcf_ok_cases u r h
  subst hr
  exact ⟨rfl, rfl, rfl⟩

/-- Witness for C5 at the default inputs. -/
theorem C5_value_bridge_witness :
    defaultInputs.long_term_growth_rate < defaultInputs.wacc ∧
    defaultInputs.shares_outstanding ≠ 0 ∧
    defaultInputs.share_price * defaultInputs.shares_outstanding ≠ 0 ∧
    calculate_dcf defaultInputs = Except.ok defaultResult ∧
    (defaultResult.enterprise_value =
      defaultResult.present_values.sum + defaultResult.present_terminal_value ∧
    defaultResult.equity_value =
      defaultResult.enterprise_value + defaultInputs.cash - defaultInputs.debt ∧
    defaultResult.intrinsic_value_premium_percentage =
      defaultResult.intrinsic_value_premium / defaultResult.market_cap) :=
  ⟨by norm_num [defaultInputs], by norm_num [defaultInputs], by norm_num [defaultInputs],
    default_run,
    C5_value_bridge defaultInputs defaultResult (by norm_num [defaultInputs])
      (by norm_num [defaultInputs]) (by norm_num [defaultInputs]) default_run⟩

/-- Claim C9: two runs whose inputs differ only in `share_price` (with
nonzero share count and distinct `wacc` and growth rate) agree on
`fcf`, `terminal_value`, `present_values`, `enterprise_value`,
`equity_value` and `intrinsic_value_per_share`: the share price feeds
only `market_cap` and the two premium fields. -/
theorem C9_share_price_independence (u : UserInputs) (p : ℚ)
    (r1 r2 : ValuationResult)
    (hs : u.shares_outstanding ≠ 0)
    (hw : u.wacc ≠ u.long_term_growth_rate)
    (h1 : calculate_dcf u = Except.ok r1)
    (h2 : calculate_dcf { u with share_price := p } = Except.ok r2) :
    r1.fcf = r2.fcf ∧ r1.terminal_value = r2.terminal_value ∧
    r1.present_values = r2.present_values ∧
    r1.enterprise_value = r2.enterprise_value ∧
    r1.equity_value = r2.equity_value ∧
    r1.intrinsic_value_per_share = r2.intrinsic_value_per_share := by
  obtain ⟨-, -, -, -, hr1⟩ := calculate_dcf_ok_cases _ _ h1
  obtain ⟨-, -, -, -, hr2⟩ := calculate_dcf_ok_cases _ _ h2
  subst hr1
  subst hr2
  exact ⟨rfl, rfl, rfl, rfl, rfl, rfl⟩

/-- Valuation result for the default inputs with the share price moved
from 3 to 5: only the market-linked fields change. -/
def shiftedResult : ValuationResult :=
  { defaultResult with
    market_cap := 5000
    intrinsic_value_premium := -1401341/270
    intrinsic_value_premium_percentage := -1401341/1350000 }

/-- The engine run on the default inputs with share price 5 succeeds
with `shiftedResult`. -/
theorem shifted_run :
    calculate_dcf { defaultInputs with share_price := 5 } = Except.ok shiftedResult := by
  have h := calculate_dcf_ok { defaultInputs with share_price := 5 }
    (by norm_num [defaultInputs]) (by norm_num [defaultInputs])
    (by norm_num [defaultInputs]) (by norm_num [defaultInputs])
  rw [h]
  congr 1
  simp only [dcfClosedForm, defaultInputs, defaultResult, shiftedResult, hr5,
    List.map_cons, List.map_nil, List.getD, List.get?, Option.getD, List.sum_cons,
    List.sum_nil, ValuationResult.mk.injEq]
  norm_num

/-- Witness for C9: default inputs against the same inputs with share
price 5. -/
theorem C9_share_price_independence_witness :
    defaultInputs.shares_outstanding ≠ 0 ∧
    defaultInputs.wacc ≠ defaultInputs.long_term_growth_rate ∧
    calculate_dcf defaultInputs = Except.ok defaultResult ∧
    calculate_dcf { defaultInputs with share_price := 5 } = Except.ok shiftedResult ∧
    (defaultResult.fcf = shiftedResult.fcf ∧
    defaultResult.terminal_value = shiftedResult.terminal_value ∧
    defaultResult.present_values = shiftedResult.present_values ∧
    defaultResult.enterprise_value = shiftedResult.enterprise_value ∧
    defaultResult.equity_value = shiftedResult.equity_value ∧
    defaultResult.intrinsic_value_per_share = shiftedResult.intrinsic_value_per_share) :=
  ⟨by norm_num [defaultInputs], by norm_num [defaultInputs], default_run, shifted_run,
    C9_share_price_independence defaultInputs 5 defaultResult shiftedResult
      (by norm_num [defaultInputs]) (by norm_num [defaultInputs]) default_run shifted_run⟩

/-- Lists agreeing on their first five entries agree on every read the
engine performs. -/
theorem getD_eq_of_take_eq (l1 l2 : List ℚ) (h : l1.take 5 = l2.take 5)
    (i : ℕ) (hi : i < 5) : l1.getD i 0 = l2.getD i 0 := by
  have h1 : (l1.take 5)[i]? = (l2.take 5)[i]? := by rw [h]
  rw [List.getElem?_take_of_lt hi, List.getElem?_take_of_lt hi] at h1
  simp [List.getD_eq_getElem?_getD, h1]

/-- Claim C10: when all four projection sequences have length at least 5,
`calculate_dcf` reads only their first five elements: two inputs with
equal scalars and equal first five elements of each sequence produce
identical outcomes, error or result, so elements beyond index 4 have no
effect on any field. -/
theorem C10_horizon_five (u1 u2 : UserInputs)
    (ht : u1.tax_rate = u2.tax_rate)
    (hg : u1.long_term_growth_rate = u2.long_term_growth_rate)
    (hw : u1.wacc = u2.wacc)
    (hp : u1.share_price = u2.share_price)
    (hsh : u1.shares_outstanding = u2.shares_outstanding)
    (hca : u1.cash = u2.cash)
    (hde : u1.debt = u2.debt)
    (hte : u1.ebit.take 5 = u2.ebit.take 5)
    (htd : u1.da.take 5 = u2.da.take 5)
    (htc : u1.capex.take 5 = u2.capex.take 5)
    (htn : u1.changes_in_nwc.take 5 = u2.changes_in_nwc.take 5)
    (hl1 : 5 ≤ u1.ebit.length) (hl2 : 5 ≤ u1.da.length)
    (hl3 : 5 ≤ u1.capex.length) (hl4 : 5 ≤ u1.changes_in_nwc.length)
    (hl5 : 5 ≤ u2.ebit.length) (hl6 : 5 ≤ u2.da.length)
    (hl7 : 5 ≤ u2.capex.length) (hl8 : 5 ≤ u2.changes_in_nwc.length) :
    calculate_dcf u1 = calculate_dcf u2 := by
  have he : ∀ i : ℕ, i < 5 → u1.ebit.getD i 0 = u2.ebit.getD i 0 :=
    fun i hi => getD_eq_of_take_eq _ _ hte i hi
  have hd : ∀ i : ℕ, i < 5 → u1.da.getD i 0 = u2.da.getD i 0 :=
    fun i hi => getD_eq_of_take_eq _ _ htd i hi
  have hc : ∀ i : ℕ, i < 5 → u1.capex.getD i 0 = u2.capex.getD i 0 :=
    fun i hi => getD_eq_of_take_eq _ _ htc i hi
  have hn : ∀ i : ℕ, i < 5 → u1.changes_in_nwc.getD i 0 = u2.changes_in_nwc.getD i 0 :=
    fun i hi => getD_eq_of_take_eq _ _ htn i hi
  simp only [calculate_dcf, hr5, List.map_cons, List.map_nil,
    he 0 (by norm_num), he 1 (by norm_num), he 2 (by norm_num), he 3 (by norm_num),
    he 4 (by norm_num), hd 0 (by norm_num), hd 1 (by norm_num), hd 2 (by norm_num),
    hd 3 (by norm_num), hd 4 (by norm_num), hc 0 (by norm_num), hc 1 (by norm_num),
    hc 2 (by norm_num), hc 3 (by norm_num), hc 4 (by norm_num), hn 0 (by norm_num),
    hn 1 (by norm_num), hn 2 (by norm_num), hn 3 (by norm_num), hn 4 (by norm_num),
    ht, hg, hw, hp, hsh, hca, hde]

/-- Default inputs padded with a sixth projection entry. -/
def longInputsA : UserInputs :=
  { defaultInputs with
    ebit := [270, 0, 0, 0, 0, 99]
    da := [20, 0, 0, 0, 0, 88]
    capex := [-30, 0, 0, 0, 0, 77]
    changes_in_nwc := [-14/5, 0, 0, 0, 0, 66] }

/-- Same first five projection entries as `longInputsA`, different sixth
entries. -/
def longInputsB : UserInputs :=
  { defaultInputs with
    ebit := [270, 0, 0, 0, 0, 11]
    da := [20, 0, 0, 0, 0, 22]
    capex := [-30, 0, 0, 0, 0, 33]
    changes_in_nwc := [-14/5, 0, 0, 0, 0, 44] }

/-- Witness for C10: two length-6 input families differing only in their
sixth entries yield identical engine outcomes. -/
theorem C10_horizon_five_witness :
    longInputsA.tax_rate = longInputsB.tax_rate ∧
    longInputsA.ebit.take 5 = longInputsB.ebit.take 5 ∧
    longInputsA.da.take 5 = longInputsB.da.take 5 ∧
    longInputsA.capex.take 5 = longInputsB.capex.take 5 ∧
    longInputsA.changes_in_nwc.take 5 = longInputsB.changes_in_nwc.take 5 ∧
    5 ≤ longInputsA.ebit.length ∧ 5 ≤ longInputsB.ebit.length ∧
    calculate_dcf longInputsA = calculate_dcf longInputsB :=
  ⟨rfl, rfl, rfl, rfl, rfl, by decide, by decide,
    C10_horizon_five longInputsA longInputsB rfl rfl rfl rfl rfl rfl rfl rfl rfl rfl rfl
      (by decide) (by decide) (by decide) (by decide) (by decide) (by decide)
      (by decide) (by decide)⟩

/-- Value stored in one worksheet cell: a string, a number, or nothing
(openpyxl leaves unwritten cells empty). -/
inductive CellValue where
  | s : String → CellValue
  | n : ℚ → CellValue
  | blank : CellValue
deriving Repr, DecidableEq

/-- Cell-range reference as built by `openpyxl.chart.Reference`. -/
structure Reference where
  min_col : ℕ
  min_row : ℕ
  max_col : ℕ
  max_row : ℕ
deriving Repr, DecidableEq

/-- Line chart carrying its data and category references. -/
structure LineChart where
  title : String
  data : Reference
  categories : Reference
deriving Repr, DecidableEq

/-- Worksheet state: the appended rows (1-based grid of cells) and the
charts added to the sheet. -/
structure Worksheet where
  rows : List (List CellValue)
  charts : List LineChart
deriving Repr, DecidableEq

/-- Cell lookup at 1-based (row, col), blank when outside the grid. -/
def cellAt (ws : Worksheet) (row col : ℕ) : CellValue :=
  (ws.rows.getD (row - 1) []).getD (col - 1) CellValue.blank

/-- Python's `isinstance(cell.value, (int, float))` test. -/
def isNumericCell : CellValue → Bool
  | CellValue.n _ => true
  | _ => false

/-- Number-format intent attached to a cell. -/
inductive NumFmt where
  | general : NumFmt
  | currency : NumFmt
  | percentage : NumFmt
deriving Repr, DecidableEq

/-- Number format each cell carries after `apply_formatting`
(src/IAS.py lines 82-119) has run: the currency format is set on every
numeric cell in rows 5..max_row, columns 1..12, and afterwards the
percentage format is set on B5, B6 and B7 when those cells are numeric,
overwriting the currency format there. -/
def apply_formatting (ws : Worksheet) (row col : ℕ) : NumFmt :=
  if (row = 5 ∨ row = 6 ∨ row = 7) ∧ col = 2 ∧ isNumericCell (cellAt ws row col) = true then
    NumFmt.percentage
  else if 5 ≤ row ∧ row ≤ ws.rows.length ∧ 1 ≤ col ∧ col ≤ 12 ∧
      isNumericCell (cellAt ws row col) = true then
    NumFmt.currency
  else NumFmt.general

/-- Chart built by `add_charts` (src/IAS.py lines 122-136): data range
F13:J13, category range E12:J12. -/
def ufcf_chart : LineChart :=
  { title := "Unlevered Free Cash Flow (UFCF)"
    data := { min_col := 6, min_row := 13, max_col := 10, max_row := 13 }
    categories := { min_col := 5, min_row := 12, max_col := 10, max_row := 12 } }

/-- Embedding of `add_charts`: appends the UFCF line chart to the sheet. -/
def add_charts (ws : Worksheet) : Worksheet :=
  { ws with charts := ws.charts ++ [ufcf_chart] }

/-- Embedding of `generate_spreadsheet` (src/IAS.py lines 139-193): the
rows appended with `ws.append`, in order, one list entry per cell.
The function applies `apply_formatting` (modelled as the separate format
map above, since formatting touches only cell styles) and never calls
`add_charts`, so the chart list of the produced workbook is empty. -/
def generate_spreadsheet (user_inputs : UserInputs) (dcf_results : ValuationResult)
    (company_name : String) : Worksheet :=
  { rows := [
      [CellValue.s ("DCF Model for " ++ company_name)],
      [CellValue.s "All figures in millions unless otherwise stated"],
      [],
      [CellValue.s "", CellValue.s "Hist.", CellValue.s "Proj.", CellValue.s "Proj.",
        CellValue.s "Proj.", CellValue.s "Proj.", CellValue.s "Proj."],
      [CellValue.s "", CellValue.s "Period 0", CellValue.s "Period 1", CellValue.s "Period 2",
        CellValue.s "Period 3", CellValue.s "Period 4", CellValue.s "Period 5"],
      [],
      [CellValue.s "Discounted Cash Flow"],
      [CellValue.s "", CellValue.s "Tax rate", CellValue.n user_inputs.tax_rate],
      [CellValue.s "", CellValue.s "Long term growth rate",
        CellValue.n user_inputs.long_term_growth_rate],
      [CellValue.s "", CellValue.s "WACC", CellValue.n user_inputs.wacc],
      [CellValue.s "", CellValue.s "Share price", CellValue.n user_inputs.share_price],
      [CellValue.s "", CellValue.s "Shares outstanding",
        CellValue.n user_inputs.shares_outstanding],
      [],
      [CellValue.s "", CellValue.s "Year count", CellValue.s "", CellValue.n 1, CellValue.n 2,
        CellValue.n 3, CellValue.n 4, CellValue.n 5],
      [CellValue.s "", CellValue.s "EBIT", CellValue.s ""] ++ user_inputs.ebit.map CellValue.n,
      [CellValue.s "", CellValue.s "Tax on EBIT", CellValue.s ""] ++
        user_inputs.ebit.map (fun e => CellValue.n (e * user_inputs.tax_rate * (-1))),
      [CellValue.s "", CellValue.s "+ Depreciation and amortization", CellValue.s ""] ++
        user_inputs.da.map CellValue.n,
      [CellValue.s "", CellValue.s "- Capital expenditure", CellValue.s ""] ++
        user_inputs.capex.map CellValue.n,
      [CellValue.s "", CellValue.s "Change in operating working capital", CellValue.s ""] ++
        user_inputs.changes_in_nwc.map CellValue.n,
      [CellValue.s "", CellValue.s "Free cash flow", CellValue.s ""] ++
        dcf_results.fcf.map CellValue.n,
      [],
      [CellValue.s "", CellValue.s "Terminal value", CellValue.s "", CellValue.s "",
        CellValue.s "", CellValue.s "", CellValue.s "", CellValue.n dcf_results.terminal_value],
      [],
      [CellValue.s "", CellValue.s "Discount factor", CellValue.s ""] ++
        (List.range 5).map (fun i => CellValue.n (1 / (1 + user_inputs.wacc) ^ (i + 1))),
      [CellValue.s "", CellValue.s "Present value of free cash flows", CellValue.s ""] ++
        dcf_results.present_values.map CellValue.n,
      [],
      [CellValue.s "", CellValue.s "Sum of present value of free cash flows",
        CellValue.n dcf_results.present_values.sum],
      [CellValue.s "", CellValue.s "Present value of terminal value",
        CellValue.n dcf_results.present_terminal_value],
      [CellValue.s "", CellValue.s "Enterprise value", CellValue.n dcf_results.enterprise_value],
      [],
      [CellValue.s "", CellValue.s "+ Cash", CellValue.n user_inputs.cash],
      [CellValue.s "", CellValue.s "- Debt", CellValue.n user_inputs.debt],
      [CellValue.s "", CellValue.s "Implied equity value (intrinsic value)",
        CellValue.n dcf_results.equity_value],
      [],
      [CellValue.s "", CellValue.s "Market capitalization", CellValue.n dcf_results.market_cap],
      [CellValue.s "", CellValue.s "Intrinsic value premium to market capitalization",
        CellValue.n dcf_results.intrinsic_value_premium],
      [CellValue.s "", CellValue.s "Intrinsic value premium percentage",
        CellValue.n dcf_results.intrinsic_value_premium_percentage]],
    charts := [] }

/-- Spreadsheet produced for the default inputs and their result. -/
def defaultSheet : Worksheet := generate_spreadsheet defaultInputs defaultResult "Example Company"

/-- Claim C6, failing on the code: the tax-rate, growth-rate and WACC
assumption values land in cells C8, C9 and C10, which receive the
currency intent from the blanket numeric loop, and no cell of the sheet
carries the percentage intent, because `apply_formatting` targets B5,
B6 and B7, which hold the header string "Period 0" or nothing, so the
`isinstance` guard skips them.  The code's own comment says B5-B7 are
the tax, discount and growth cells, so the cell references are a slip. -/
theorem C6_percentage_intent_bug :
    cellAt defaultSheet 8 3 = CellValue.n defaultInputs.tax_rate ∧
    cellAt defaultSheet 9 3 = CellValue.n defaultInputs.long_term_growth_rate ∧
    cellAt defaultSheet 10 3 = CellValue.n defaultInputs.wacc ∧
    apply_formatting defaultSheet 8 3 = NumFmt.currency ∧
    apply_formatting defaultSheet 9 3 = NumFmt.currency ∧
    apply_formatting defaultSheet 10 3 = NumFmt.currency ∧
    ((List.range 37).all (fun r =>
      (List.range 12).all (fun c =>
        apply_formatting defaultSheet (r + 1) (c + 1) != NumFmt.percentage)) = true) :=
  ⟨rfl, rfl, rfl, by decide, by decide, by decide, by decide⟩

/-- Claim C7, failing on the code: `generate_spreadsheet` never calls
`add_charts`, so the produced workbook holds no chart at all; and even
the chart `add_charts` would add references data range F13:J13 and
category range E12:J12, which are blank cells, while the free-cash-flow
row actually sits in row 20, columns 4-8. -/
theorem C7_chart_bug :
    defaultSheet.charts = [] ∧
    (add_charts defaultSheet).charts = [ufcf_chart] ∧
    ufcf_chart.data.min_row = 13 ∧ ufcf_chart.data.max_row = 13 ∧
    ufcf_chart.data.min_col = 6 ∧ ufcf_chart.data.max_col = 10 ∧
    cellAt defaultSheet 13 6 = CellValue.blank ∧
    cellAt defaultSheet 13 7 = CellValue.blank ∧
    cellAt defaultSheet 13 8 = CellValue.blank ∧
    cellAt defaultSheet 13 9 = CellValue.blank ∧
    cellAt defaultSheet 13 10 = CellValue.blank ∧
    cellAt defaultSheet 20 2 = CellValue.s "Free cash flow" ∧
    cellAt defaultSheet 20 4 = CellValue.n (defaultResult.fcf.getD 0 0) ∧
    cellAt defaultSheet 20 8 = CellValue.n (defaultResult.fcf.getD 4 0) :=
  ⟨rfl, rfl, rfl, rfl, rfl, rfl, rfl, rfl, rfl, rfl, rfl, rfl, rfl, rfl⟩

/-- Python's round-half-even on an exact rational value. -/
def pyRound (q : ℚ) : ℤ :=
  if q - ⌊q⌋ < 1/2 then ⌊q⌋
  else if 1/2 < q - ⌊q⌋ then ⌊q⌋ + 1
  else if ⌊q⌋ % 2 = 0 then ⌊q⌋ else ⌊q⌋ + 1

/-- String of `n` zero digits. -/
def zeros : ℕ → String
  | 0 => ""
  | n + 1 => "0" ++ zeros n

/-- Thousands grouping on a reversed digit list. -/
def commaGroupRev : List Char → List Char
  | a :: b :: c :: d :: rest => a :: b :: c :: ',' :: commaGroupRev (d :: rest)
  | l => l

/-- Thousands separators inserted into a digit string. -/
def withCommas (s : String) : String := String.mk (commaGroupRev s.data.reverse).reverse

/-- Python format `{:.df}`: fixed-point with `d` decimal places. -/
def pyFixed (q : ℚ) (d : ℕ) : String :=
  let n := pyRound (q * (10 : ℚ) ^ d)
  let a := n.natAbs
  let fs := Nat.repr (a % 10 ^ d)
  (if n < 0 then "-" else "") ++ Nat.repr (a / 10 ^ d) ++
    (if d = 0 then "" else "." ++ (zeros (d - fs.length) ++ fs))

/-- Python format `{:,.df}`: fixed-point with thousands separators. -/
def pyFixedComma (q : ℚ) (d : ℕ) : String :=
  let n := pyRound (q * (10 : ℚ) ^ d)
  let a := n.natAbs
  let fs := Nat.repr (a % 10 ^ d)
  (if n < 0 then "-" else "") ++ withCommas (Nat.repr (a / 10 ^ d)) ++
    (if d = 0 then "" else "." ++ (zeros (d - fs.length) ++ fs))

/-- Python format `{:.1%}`: percentage with one decimal place. -/
def pyPct1 (q : ℚ) : String := pyFixed (q * 100) 1 ++ "%"

/-- Document projection produced by `generate_pdf`: the title, the two
label-value tables, and the disclaimer string. -/
structure PdfDoc where
  title : String
  assumptions_data : List (List String)
  results_data : List (List String)
  disclaimer : String
deriving Repr, DecidableEq

/-- Embedding of `generate_pdf` (src/IAS.py lines 220-308): the two
tables it builds, with every value already rendered to its final string
(percentages to one decimal place, currency to two). -/
def generate_pdf (user_inputs : UserInputs) (dcf_results : ValuationResult)
    (company_name : String) : PdfDoc :=
  { title := "DCF Analysis Report for " ++ company_name
    assumptions_data := [
      ["Key Assumptions", "Value"],
      ["Tax Rate", pyPct1 user_inputs.tax_rate],
      ["WACC", pyPct1 user_inputs.wacc],
      ["Long Term Growth Rate", pyPct1 user_inputs.long_term_growth_rate],
      ["Share Price", "$" ++ pyFixed user_inputs.share_price 2],
      ["Shares Outstanding", pyFixedComma user_inputs.shares_outstanding 0]]
    results_data := [
      ["DCF Results", "Value"],
      ["Enterprise Value", "$" ++ pyFixedComma dcf_results.enterprise_value 2],
      ["Equity Value", "$" ++ pyFixedComma dcf_results.equity_value 2],
      ["Intrinsic Value per Share", "$" ++ pyFixedComma dcf_results.intrinsic_value_per_share 2],
      ["Market Cap", "$" ++ pyFixedComma dcf_results.market_cap 2],
      ["Intrinsic Value Premium", "$" ++ pyFixedComma dcf_results.intrinsic_value_premium 2],
      ["Premium Percentage", pyPct1 dcf_results.intrinsic_value_premium_percentage]]
    disclaimer := "Disclaimer: This report is for educational purposes only." }

/-- Rendering of the default tax rate 0.21 as a one-decimal percentage. -/
theorem pyPct1_tax_default : pyPct1 (21/100) = "21.0%" := by
  have hr : pyRound ((21:ℚ)/100 * 100 * 10 ^ 1) = 210 := by
    have h2 : ((21:ℚ)/100 * 100 * 10 ^ 1) = 210 := by norm_num
    rw [h2, pyRound]
    norm_num
  simp only [pyPct1, pyFixed, hr]
  decide

/-- Claim C8, failing on the code in its formatting-intent part: the
document projection renders the tax rate as the final string "21.0%"
(one decimal place) and the grid stores the raw fraction 0.21 as a
number, as claimed; but that grid cell carries the currency intent,
not the percentage intent, because `apply_formatting` points its
percentage list at B5-B7 instead of C8-C10. -/
theorem C8_projection_bug :
    (generate_pdf defaultInputs defaultResult "Example Company").assumptions_data.getD 1 [] =
      ["Tax Rate", "21.0%"] ∧
    cellAt defaultSheet 8 3 = CellValue.n (21/100) ∧
    isNumericCell (cellAt defaultSheet 8 3) = true ∧
    apply_formatting defaultSheet 8 3 = NumFmt.currency := by
  refine ⟨?_, rfl, by decide, by decide⟩
  have h := pyPct1_tax_default
  simp only [generate_pdf, defaultInputs, List.getD, List.get?, Option.getD]
  rw [h]

end IAS
